import Mathlib

/-!
Verification of the two operator scripts of this repository against their
specification: `scripts/migrate_database.py` (Database Migration Procedure)
and `scripts/sync_pvc_from_host.py` (Volume Sync Procedure).

The scripts are linear orchestration pipelines around external `kubectl`
invocations.  We embed them shallowly: the outcome of every external command
is an input (a `CmdResult` / `StepOutcome` supplied by a *world* record), and
each procedure is a pure function from its arguments and world to the list of
externally visible events it performs plus the process exit code.  Exceptions
(`subprocess.CalledProcessError`, `RuntimeError`, `KeyboardInterrupt`) are
modelled with `Except` / explicit outcome constructors; `sys.exit(n)` /
normal process termination becomes the returned exit code.
-/

namespace Homelab

/-- Captured result of one external command invocation: its standard output,
standard error and process exit status (`subprocess.run` with
`capture_output=True`). -/
structure CmdResult where
  stdout : String
  stderr : String
  exitCode : Nat
deriving DecidableEq

/-- Whitespace test matching Python `str.strip()` default characters. -/
def pyIsSpace (c : Char) : Bool :=
  c == ' ' || c == '\t' || c == '\n' || c == '\r' || c == '\x0b' || c == '\x0c'

/-- Python `str.strip()` on the character list: drop whitespace from both
ends. -/
def pyStripList (s : List Char) : List Char :=
  ((s.dropWhile pyIsSpace).reverse.dropWhile pyIsSpace).reverse

/-- Python `str.strip()`. -/
def pyStrip (s : String) : String :=
  String.mk (pyStripList s.data)

/-- Test whether `s` starts with `pat` (helper for the Python `in`
substring test). -/
def isPrefixList : List Char → List Char → Bool
  | [], _ => true
  | _ :: _, [] => false
  | p :: ps, c :: cs => p == c && isPrefixList ps cs

/-- Python `pat in s` substring containment on character lists. -/
def containsList (pat : List Char) : List Char → Bool
  | [] => isPrefixList pat []
  | c :: cs => isPrefixList pat (c :: cs) || containsList pat cs

/-- Python `pat in s` on strings. -/
def pyContains (s pat : String) : Bool :=
  containsList pat.data s.data

/-- Outcome of one remote invocation as seen by the calling Python code:
it returned normally, raised `subprocess.CalledProcessError` (non-zero
exit), or the operator interrupted it (`KeyboardInterrupt`). -/
inductive StepOutcome
  | ok
  | err
  | intr
deriving DecidableEq

/-! ## scripts/sync_pvc_from_host.py -/

/-- Model of `run_kubectl(cmd, check, capture_output=True)`: returns the stripped
stdout; raises `CalledProcessError` only when `check` is set and the exit
status is non-zero (with `check=False` the exit status is ignored and the
stdout is returned regardless). -/
def run_kubectl (check : Bool) (r : CmdResult) : Except CmdResult String :=
  if check = true ∧ r.exitCode ≠ 0 then Except.error r
  else Except.ok (pyStrip r.stdout)

/-- Model of `check_pvc_exists`: `kubectl get pvc` with `check=True`; true iff that
call did not raise. -/
def check_pvc_exists (r : CmdResult) : Bool :=
  match run_kubectl true r with
  | Except.ok _ => true
  | Except.error _ => false

/-- Model of `check_host_path_exists_on_node`: runs `test -d /host-data` in the pod
with `check=False`, then executes `return True`; the bare `except` returning
`False` is reachable only when the subprocess invocation itself raises,
which `check=False` prevents for a non-zero exit status.  `r` is the result
of the `test -d` invocation. -/
def check_host_path_exists_on_node (r : CmdResult) : Bool :=
  match run_kubectl false r with
  | Except.ok _ => true
  | Except.error _ => false

/-- Model of `delete_pod`: `kubectl delete pod` with `check=True`, but the
`CalledProcessError` is caught and only a warning is printed, so the call
always returns normally to the caller. -/
def delete_pod (r : CmdResult) : Except CmdResult Unit :=
  match run_kubectl true r with
  | Except.ok _ => Except.ok ()
  | Except.error _ => Except.ok ()

/-- One observation of the pod status poll (the `kubectl get pod`
jsonpath phase query): the phase string, or `pollError` when the
`kubectl` call itself failed (caught and ignored by the loop). -/
inductive PodPhase
  | running
  | failed
  | pending
  | pollError
deriving DecidableEq

/-- The polling loop of `create_temp_pod`: the list holds the poll results
observed within the 60-second window (2-second sleep between polls); the
loop returns `True` on the first `Running` phase, `False` on the first
`Failed` phase, and `False` (timeout) when the window is exhausted. -/
def awaitPodReady : List PodPhase → Bool
  | [] => false
  | PodPhase.running :: _ => true
  | PodPhase.failed :: _ => false
  | _ :: rest => awaitPodReady rest

/-- Externally visible events of one Volume Sync Procedure run, in order of
occurrence. -/
inductive SyncEv
  | checkPvc
  /-- Event: `kubectl apply -f` of the helper-pod manifest. -/
  | applyPod
  /-- Event: `test -d /host-data` inside the helper (`check=True`),
  performed by `sync_data_from_host`. -/
  | hostCheck
  /-- the non-fatal `find /host-data -type f | wc -l` probe. -/
  | fileProbe
  /-- the `rm -rf /pvc-data/* ...` wipe of the destination mount (first part
  of the sync shell command). -/
  | wipePvc
  /-- the `tar -cf - . | (cd /pvc-data && tar -xf -)` copy (second part of
  the sync shell command). -/
  | tarCopy
  /-- the `verify_sync` comparison step. -/
  | verifyStep
  /-- invocation of `delete_pod`. -/
  | deletePod
deriving DecidableEq

/-- Result of `create_temp_pod` as seen by `main`: it returned `True`
(pod reached `Running`), returned `False` (pod `Failed` or readiness
timeout), or an exception escaped it (failed `kubectl apply`, or
interruption). -/
inductive CreateRes
  | readyTrue
  | readyFalse
  | raised
deriving DecidableEq

/-- Model of `create_temp_pod`: applies the pod manifest, then polls the pod phase.
Returns the events it performed and its result.  When the apply raises, the
exception propagates (a nested `finally` there only removes the local
manifest temp file). -/
def create_temp_pod (applyStep : StepOutcome) (polls : List PodPhase) :
    List SyncEv × CreateRes :=
  match applyStep with
  | StepOutcome.ok =>
      ([SyncEv.applyPod],
        if awaitPodReady polls then CreateRes.readyTrue else CreateRes.readyFalse)
  | _ => ([SyncEv.applyPod], CreateRes.raised)

/-- Model of `sync_data_from_host`: first the `test -d /host-data` check
(`check=True`, re-raised on failure), then the non-fatal file-count probe,
then the single shell command that wipes `/pvc-data` (`rm -rf ... || true`)
and pipes `tar` from `/host-data` into `/pvc-data`.  Returns the events
issued and whether the function returned normally (`false` = an exception
propagated to `main`). -/
def sync_data_from_host (hostCheckStep syncCmdStep : StepOutcome) :
    List SyncEv × Bool :=
  match hostCheckStep with
  | StepOutcome.ok =>
      match syncCmdStep with
      | StepOutcome.ok =>
          ([SyncEv.hostCheck, SyncEv.fileProbe, SyncEv.wipePvc, SyncEv.tarCopy], true)
      | _ =>
          ([SyncEv.hostCheck, SyncEv.fileProbe, SyncEv.wipePvc, SyncEv.tarCopy], false)
  | _ => ([SyncEv.hostCheck], false)

/-- Size difference computed by `verify_sync`: `abs(host_total_size -
pvc_total_size)` on the parsed `du -sb` outputs. -/
def verify_sync_size_diff (hostTotalSize pvcTotalSize : Nat) : Nat :=
  Int.natAbs ((hostTotalSize : Int) - (pvcTotalSize : Int))

/-- The match predicate returned by `verify_sync` when all four probe
commands succeeded: file counts equal and size difference strictly below
1024 bytes. -/
def verify_sync_match (hostFileCount hostTotalSize pvcFileCount pvcTotalSize : Nat) :
    Bool :=
  hostFileCount == pvcFileCount
    && decide (verify_sync_size_diff hostTotalSize pvcTotalSize < 1024)

/-- Full `verify_sync` including its error path: when any of the probe commands
raises `CalledProcessError` (`probesOk = false`) the exception is caught,
a warning is printed and `False` is returned. -/
def verify_sync (probesOk : Bool)
    (hostFileCount hostTotalSize pvcFileCount pvcTotalSize : Nat) : Bool :=
  if probesOk then
    verify_sync_match hostFileCount hostTotalSize pvcFileCount pvcTotalSize
  else false

/-- Command-line arguments of the Volume Sync Procedure that affect control
flow. -/
structure SyncArgs where
  verify : Bool
  dryRun : Bool
deriving DecidableEq

/-- The world of one Volume Sync run: outcomes of every external command the
run may issue.  The result of the `kubectl delete pod` teardown is absent
because `delete_pod` swallows its failure, so it cannot influence the trace
or the exit code. -/
structure SyncWorld where
  /-- result of the `kubectl get pvc` existence check. -/
  pvcCheck : CmdResult
  /-- outcome of `kubectl apply -f` for the helper-pod manifest. -/
  applyStep : StepOutcome
  /-- phases observed by the readiness polling loop within its window. -/
  polls : List PodPhase
  /-- outcome of the `test -d /host-data` check inside the helper. -/
  hostCheckStep : StepOutcome
  /-- outcome of the wipe-and-tar sync shell command. -/
  syncCmdStep : StepOutcome
deriving DecidableEq

/-- Model of `main` in `sync_pvc_from_host.py`: event trace and process exit code.
Mirrors the source: PVC check, dry-run short-circuit, `create_temp_pod`
(with `pod_created` set to `True` only after it returns `True`),
`sync_data_from_host`, optional `verify_sync`, and a `finally` block that
calls `delete_pod` only when `pod_created` is set.  `KeyboardInterrupt` and
generic exceptions are caught at the top and both lead to `sys.exit(1)`;
`sys.exit` raises `SystemExit`, which runs the `finally` block but is caught
by neither handler. -/
def runSyncMain (a : SyncArgs) (w : SyncWorld) : List SyncEv × Nat :=
  if !check_pvc_exists w.pvcCheck then ([SyncEv.checkPvc], 1)
  else if a.dryRun then ([SyncEv.checkPvc], 0)
  else
    let created := create_temp_pod w.applyStep w.polls
    match created.2 with
    | CreateRes.raised =>
        -- exception from `create_temp_pod`; `pod_created` still `False`,
        -- so the `finally` block does not call `delete_pod`.
        (SyncEv.checkPvc :: created.1, 1)
    | CreateRes.readyFalse =>
        -- `create_temp_pod` returned `False`: `sys.exit(1)` before
        -- `pod_created = True`, so `delete_pod` is not called.
        (SyncEv.checkPvc :: created.1, 1)
    | CreateRes.readyTrue =>
        let synced := sync_data_from_host w.hostCheckStep w.syncCmdStep
        if synced.2 then
          if a.verify then
            (SyncEv.checkPvc :: created.1 ++ synced.1
              ++ [SyncEv.verifyStep, SyncEv.deletePod], 0)
          else
            (SyncEv.checkPvc :: created.1 ++ synced.1 ++ [SyncEv.deletePod], 0)
        else
          (SyncEv.checkPvc :: created.1 ++ synced.1 ++ [SyncEv.deletePod], 1)

/-! ## scripts/migrate_database.py -/

/-- Captured result of one `kubectl exec` invocation in binary mode
(`text=False`): stdout as raw bytes. -/
structure BinCmdResult where
  stdoutBytes : List Nat
  stderr : String
  exitCode : Nat
deriving DecidableEq

/-- Model of `run_kubectl_exec` (text mode): returns `(stdout, stderr)`; raises
`CalledProcessError` on a non-zero exit status (`check=True`). -/
def run_kubectl_exec (r : CmdResult) : Except CmdResult (String × String) :=
  if r.exitCode = 0 then Except.ok (r.stdout, r.stderr)
  else Except.error r

/-- Model of `run_kubectl_exec` with `binary=True`: stdout is the untouched byte
sequence; raises `CalledProcessError` on a non-zero exit status. -/
def run_kubectl_exec_binary (r : BinCmdResult) :
    Except BinCmdResult (List Nat × String) :=
  if r.exitCode = 0 then Except.ok (r.stdoutBytes, r.stderr)
  else Except.error r

/-- Model of `check_pod_exists`: `kubectl get pod` with `check=True`; on success,
true iff the string `"Running"` occurs in the stdout; `CalledProcessError`
is caught and yields false. -/
def check_pod_exists (r : CmdResult) : Bool :=
  match r.exitCode with
  | 0 => pyContains r.stdout "Running"
  | _ => false

/-- The catalog lookup command built by `check_database_exists`
(`\x27` is the single-quote character of the SQL literal). -/
def check_database_exists_query (db_name pg_user : String) : List String :=
  ["psql", "-U", pg_user, "-tAc",
    "SELECT 1 FROM pg_database WHERE datname=\x27" ++ db_name ++ "\x27"]

/-- Model of `check_database_exists`: runs the catalog lookup; on success true iff
the stripped stdout equals `"1"`; a `CalledProcessError` from the probe is
caught and yields false (never re-raised). `probe` is the result of the
`psql` invocation. -/
def check_database_exists (probe : CmdResult) : Bool :=
  match run_kubectl_exec probe with
  | Except.ok (stdout, _) => pyStrip stdout == "1"
  | Except.error _ => false

/-- Failure modes of `dump_database`: the remote `pg_dump` exited non-zero
(`CalledProcessError` propagated), or the payload it returned was empty
(`RuntimeError` raised by the length check). -/
inductive DumpErr
  | cmdError (exitCode : Nat)
  | emptyDump
deriving DecidableEq

/-- Model of `dump_database`: runs `pg_dump -F c` in binary mode and returns the
payload bytes; raises when the command fails or when the payload has length
0 (`if not dump_data or len(dump_data) == 0`). -/
def dump_database (r : BinCmdResult) : Except DumpErr (List Nat) :=
  match run_kubectl_exec_binary r with
  | Except.error e => Except.error (DumpErr.cmdError e.exitCode)
  | Except.ok (bytes, _) =>
      if bytes.isEmpty then Except.error DumpErr.emptyDump
      else Except.ok bytes

/-- The `pg_restore` command line built by `restore_database`: the fixed
flags, then `--clean` exactly when requested, then the remote payload
path. -/
def restore_cmd (pg_user db_name : String) (clean : Bool) : List String :=
  (["pg_restore", "-U", pg_user, "-d", db_name, "-v", "--no-owner", "--no-acl"]
      ++ (if clean then ["--clean"] else []))
    ++ ["/tmp/dump.dump"]

/-- Externally visible events of one Database Migration Procedure run, in
order of occurrence. -/
inductive MigEv
  | checkSrcPod
  | checkDstPod
  | checkSrcDb
  | checkDstDb
  /-- the `pg_dump` invocation. -/
  | dumpStep
  /-- writing the payload to the local temporary file. -/
  | writeTmp
  /-- Event: `kubectl cp` of the local temporary file to `/tmp/dump.dump` in the
  destination pod. -/
  | cpToPod
  /-- Event: `os.unlink` of the local temporary file (in the `finally` of the copy,
  `OSError` swallowed). -/
  | unlinkTmp
  /-- the `pg_restore` invocation, with the exact command line and the
  payload that was copied. -/
  | restoreStep (cmd : List String) (payload : List Nat)
  /-- Event: `rm /tmp/dump.dump` in the destination pod (in the `finally` of the
  restore, `CalledProcessError` swallowed). -/
  | rmRemote
  /-- the permission-repair `psql` script of `fix_database_permissions`. -/
  | fixPerms
deriving DecidableEq

/-- Model of `restore_database`: writes the payload to a local temp file, copies it
into the pod (`finally`: unlink the local file, `OSError` ignored), then
runs `pg_restore` (`finally`: `rm /tmp/dump.dump`, `CalledProcessError`
ignored — the `rm` result therefore cannot influence the result, which the
unused last parameter makes explicit).  Returns the events issued and
whether the function returned normally. -/
def restore_database (pg_user db_name : String) (payload : List Nat)
    (clean : Bool) (cpStep restoreOutcome : StepOutcome) (_rmOk : Bool) :
    List MigEv × Bool :=
  match cpStep with
  | StepOutcome.ok =>
      let cmd := restore_cmd pg_user db_name clean
      match restoreOutcome with
      | StepOutcome.ok =>
          ([MigEv.writeTmp, MigEv.cpToPod, MigEv.unlinkTmp,
            MigEv.restoreStep cmd payload, MigEv.rmRemote], true)
      | _ =>
          ([MigEv.writeTmp, MigEv.cpToPod, MigEv.unlinkTmp,
            MigEv.restoreStep cmd payload, MigEv.rmRemote], false)
  | _ => ([MigEv.writeTmp, MigEv.cpToPod, MigEv.unlinkTmp], false)

/-- Command-line arguments of the Database Migration Procedure. -/
structure MigArgs where
  source_db : String
  dest_db : String
  source_user : String
  dest_user : String
  clean : Bool
deriving DecidableEq

/-- The world of one Database Migration run: outcomes of every external
command the run may issue. -/
structure MigWorld where
  /-- result of `kubectl get pod` for the source pod. -/
  srcPodCheck : CmdResult
  /-- result of `kubectl get pod` for the destination pod. -/
  dstPodCheck : CmdResult
  /-- result of the source-database catalog lookup. -/
  srcDbProbe : CmdResult
  /-- result of the destination-database catalog lookup. -/
  dstDbProbe : CmdResult
  /-- result of the `pg_dump` invocation (binary stdout). -/
  dumpResult : BinCmdResult
  /-- outcome of the `kubectl cp` transfer. -/
  cpStep : StepOutcome
  /-- outcome of the `pg_restore` invocation. -/
  restoreOutcome : StepOutcome
  /-- whether the remote `rm /tmp/dump.dump` succeeded (its failure is
  swallowed). -/
  rmOk : Bool
  /-- outcome of the permission-repair command (`err` is caught and turned
  into a warning; `intr` propagates to the top-level handler). -/
  fixPermsStep : StepOutcome
deriving DecidableEq

/-- The first five events of a run that reaches the dump step. -/
def migHead : List MigEv :=
  [MigEv.checkSrcPod, MigEv.checkDstPod, MigEv.checkSrcDb, MigEv.checkDstDb,
   MigEv.dumpStep]

/-- Model of `main` in `migrate_database.py` (with the module-level
`except KeyboardInterrupt` / `except Exception` wrapper): event trace and
process exit code.  Mirrors the source: both pod checks, both database
checks (each failure → `sys.exit(1)`), `dump_database`, `restore_database`,
`fix_database_permissions` (whose `CalledProcessError` is caught and
reported as a warning), then normal return (exit 0). -/
def runMigrateMain (a : MigArgs) (w : MigWorld) : List MigEv × Nat :=
  if !check_pod_exists w.srcPodCheck then ([MigEv.checkSrcPod], 1)
  else if !check_pod_exists w.dstPodCheck then
    ([MigEv.checkSrcPod, MigEv.checkDstPod], 1)
  else if !check_database_exists w.srcDbProbe then
    ([MigEv.checkSrcPod, MigEv.checkDstPod, MigEv.checkSrcDb], 1)
  else if !check_database_exists w.dstDbProbe then
    ([MigEv.checkSrcPod, MigEv.checkDstPod, MigEv.checkSrcDb, MigEv.checkDstDb], 1)
  else
    match dump_database w.dumpResult with
    | Except.error _ => (migHead, 1)
    | Except.ok payload =>
        let restored := restore_database a.dest_user a.dest_db payload a.clean
          w.cpStep w.restoreOutcome w.rmOk
        if restored.2 then
          match w.fixPermsStep with
          | StepOutcome.intr => (migHead ++ restored.1 ++ [MigEv.fixPerms], 1)
          | _ => (migHead ++ restored.1 ++ [MigEv.fixPerms], 0)
        else (migHead ++ restored.1, 1)

/-- Sample arguments for concrete evaluations: scenario A of the spec
(`alpha` to `alpha`, default users, no `--clean`). -/
def sampleMigArgs : MigArgs :=
  { source_db := "alpha", dest_db := "alpha", source_user := "homelab",
    dest_user := "postgres", clean := false }

/-- Sample world in which every external command of the Database Migration
Procedure succeeds and the dump payload is the two bytes `[80, 71]`. -/
def sampleMigWorldOk : MigWorld :=
  { srcPodCheck := { stdout := "prod-postgres-cluster-0 1/1 Running", stderr := "", exitCode := 0 },
    dstPodCheck := { stdout := "postgres-statefulset-0 1/1 Running", stderr := "", exitCode := 0 },
    srcDbProbe := { stdout := "1\n", stderr := "", exitCode := 0 },
    dstDbProbe := { stdout := "1\n", stderr := "", exitCode := 0 },
    dumpResult := { stdoutBytes := [80, 71], stderr := "", exitCode := 0 },
    cpStep := StepOutcome.ok,
    restoreOutcome := StepOutcome.ok,
    rmOk := true,
    fixPermsStep := StepOutcome.ok }

/-- Sample world in which every external command of the Volume Sync
Procedure succeeds and the helper pod becomes `Running` on the second
poll. -/
def sampleSyncWorldOk : SyncWorld :=
  { pvcCheck := { stdout := "my-pvc Bound", stderr := "", exitCode := 0 },
    applyStep := StepOutcome.ok,
    polls := [PodPhase.pending, PodPhase.running],
    hostCheckStep := StepOutcome.ok,
    syncCmdStep := StepOutcome.ok }

/-- World of spec scenario D: the PVC exists, `kubectl apply` succeeds (the
helper pod is created in the cluster), but the pod never reaches `Running`
within the 60-second readiness window. -/
def syncTimeoutWorld : SyncWorld :=
  { pvcCheck := { stdout := "my-pvc Bound", stderr := "", exitCode := 0 },
    applyStep := StepOutcome.ok,
    polls := [PodPhase.pending, PodPhase.pending, PodPhase.pending],
    hostCheckStep := StepOutcome.ok,
    syncCmdStep := StepOutcome.ok }

/-! ## Helper lemmas -/

/-- A successful `dump_database` never returns an empty payload. -/
theorem dump_database_ok_ne_nil (r : BinCmdResult) (p : List Nat)
    (h : dump_database r = Except.ok p) : p ≠ [] := by
  intro hnil
  subst hnil
  by_cases he : r.exitCode = 0
  · rcases hb : r.stdoutBytes with _ | ⟨x, xs⟩
    · simp [dump_database, run_kubectl_exec_binary, he, hb] at h
    · simp [dump_database, run_kubectl_exec_binary, he, hb] at h
  · simp [dump_database, run_kubectl_exec_binary, he] at h

/-- Exhaustive description of the possible traces of `runMigrateMain`. -/
theorem runMigrateMain_shape (a : MigArgs) (w : MigWorld) :
    runMigrateMain a w = ([MigEv.checkSrcPod], 1) ∨
    runMigrateMain a w = ([MigEv.checkSrcPod, MigEv.checkDstPod], 1) ∨
    runMigrateMain a w =
      ([MigEv.checkSrcPod, MigEv.checkDstPod, MigEv.checkSrcDb], 1) ∨
    runMigrateMain a w =
      ([MigEv.checkSrcPod, MigEv.checkDstPod, MigEv.checkSrcDb,
        MigEv.checkDstDb], 1) ∨
    runMigrateMain a w = (migHead, 1) ∨
    runMigrateMain a w =
      (migHead ++ [MigEv.writeTmp, MigEv.cpToPod, MigEv.unlinkTmp], 1) ∨
    (∃ p, p ≠ [] ∧
      (runMigrateMain a w =
          (migHead ++ [MigEv.writeTmp, MigEv.cpToPod, MigEv.unlinkTmp,
            MigEv.restoreStep (restore_cmd a.dest_user a.dest_db a.clean) p,
            MigEv.rmRemote], 1) ∨
        ∃ e, runMigrateMain a w =
          (migHead ++ [MigEv.writeTmp, MigEv.cpToPod, MigEv.unlinkTmp,
            MigEv.restoreStep (restore_cmd a.dest_user a.dest_db a.clean) p,
            MigEv.rmRemote, MigEv.fixPerms], e))) := by
  by_cases h1 : check_pod_exists w.srcPodCheck = true
  swap
  · rw [Bool.not_eq_true] at h1
    exact Or.inl (by simp [runMigrateMain, h1])
  by_cases h2 : check_pod_exists w.dstPodCheck = true
  swap
  · rw [Bool.not_eq_true] at h2
    exact Or.inr (Or.inl (by simp [runMigrateMain, h1, h2]))
  by_cases h3 : check_database_exists w.srcDbProbe = true
  swap
  · rw [Bool.not_eq_true] at h3
    exact Or.inr (Or.inr (Or.inl (by simp [runMigrateMain, h1, h2, h3])))
  by_cases h4 : check_database_exists w.dstDbProbe = true
  swap
  · rw [Bool.not_eq_true] at h4
    exact Or.inr (Or.inr (Or.inr (Or.inl
      (by simp [runMigrateMain, h1, h2, h3, h4]))))
  rcases hd : dump_database w.dumpResult with e | p
  · exact Or.inr (Or.inr (Or.inr (Or.inr (Or.inl
      (by simp [runMigrateMain, h1, h2, h3, h4, hd])))))
  have hp : p ≠ [] := dump_database_ok_ne_nil w.dumpResult p hd
  cases hcp : w.cpStep with
  | ok =>
    cases hro : w.restoreOutcome with
    | ok =>
      refine Or.inr (Or.inr (Or.inr (Or.inr (Or.inr (Or.inr
        ⟨p, hp, Or.inr ?_⟩)))))
      cases hfx : w.fixPermsStep with
      | ok => exact ⟨0, by
          simp [runMigrateMain, h1, h2, h3, h4, hd, restore_database, hcp, hro, hfx]⟩
      | err => exact ⟨0, by
          simp [runMigrateMain, h1, h2, h3, h4, hd, restore_database, hcp, hro, hfx]⟩
      | intr => exact ⟨1, by
          simp [runMigrateMain, h1, h2, h3, h4, hd, restore_database, hcp, hro, hfx]⟩
    | err =>
      exact Or.inr (Or.inr (Or.inr (Or.inr (Or.inr (Or.inr ⟨p, hp, Or.inl
        (by simp [runMigrateMain, h1, h2, h3, h4, hd, restore_database, hcp, hro])⟩)))))
    | intr =>
      exact Or.inr (Or.inr (Or.inr (Or.inr (Or.inr (Or.inr ⟨p, hp, Or.inl
        (by simp [runMigrateMain, h1, h2, h3, h4, hd, restore_database, hcp, hro])⟩)))))
  | err =>
    exact Or.inr (Or.inr (Or.inr (Or.inr (Or.inr (Or.inl
      (by simp [runMigrateMain, h1, h2, h3, h4, hd, restore_database, hcp]))))))
  | intr =>
    exact Or.inr (Or.inr (Or.inr (Or.inr (Or.inr (Or.inl
      (by simp [runMigrateMain, h1, h2, h3, h4, hd, restore_database, hcp]))))))

/-- Every restore event carries the command built by `restore_cmd` for the
destination user and database of the run and its `--clean` option, and a
non-empty payload. -/
theorem runMigrateMain_restore_mem (a : MigArgs) (w : MigWorld)
    (cmd : List String) (p : List Nat)
    (hmem : MigEv.restoreStep cmd p ∈ (runMigrateMain a w).1) :
    cmd = restore_cmd a.dest_user a.dest_db a.clean ∧ p ≠ [] := by
  rcases runMigrateMain_shape a w with h|h|h|h|h|h|⟨q, hq, h|⟨e, h⟩⟩ <;>
    rw [h] at hmem <;> simp [migHead] at hmem
  · exact ⟨hmem.1, hmem.2 ▸ hq⟩
  · exact ⟨hmem.1, hmem.2 ▸ hq⟩

/-- Membership of the relevant flags in the command built by
`restore_cmd`. -/
theorem restore_cmd_flags (u d : String) (c : Bool) :
    "--no-owner" ∈ restore_cmd u d c ∧ "--no-acl" ∈ restore_cmd u d c ∧
      (c = true → "--clean" ∈ restore_cmd u d c) ∧
      (u ≠ "--clean" → d ≠ "--clean" →
        ("--clean" ∈ restore_cmd u d c ↔ c = true)) := by
  refine ⟨by simp [restore_cmd], by simp [restore_cmd], ?_, ?_⟩
  · intro hc
    subst hc
    simp [restore_cmd]
  · intro hu hd
    cases c with
    | true => simp [restore_cmd]
    | false =>
      simp only [Bool.false_eq_true, iff_false]
      intro hm
      simp [restore_cmd] at hm
      rcases hm with h | h
      · exact hu h.symm
      · exact hd h.symm

/-! ## Claims about scripts/migrate_database.py -/

/-- C2: if the dump step produces a payload of length 0 in a run that
reached it, the procedure aborts with exit code 1 immediately after the
dump, before any destination mutation (the trace is exactly the four checks
plus the dump); and in every run, every restore invocation carries a
non-empty payload. -/
theorem migrate_empty_dump_aborts (a : MigArgs) (w : MigWorld) :
    (check_pod_exists w.srcPodCheck = true →
      check_pod_exists w.dstPodCheck = true →
      check_database_exists w.srcDbProbe = true →
      check_database_exists w.dstDbProbe = true →
      w.dumpResult.exitCode = 0 → w.dumpResult.stdoutBytes = [] →
      runMigrateMain a w = (migHead, 1)) ∧
    (∀ cmd p, MigEv.restoreStep cmd p ∈ (runMigrateMain a w).1 → p ≠ []) := by
  constructor
  · intro h1 h2 h3 h4 h5 h6
    simp [runMigrateMain, h1, h2, h3, h4, dump_database,
      run_kubectl_exec_binary, h5, h6]
  · intro cmd p hmem
    exact (runMigrateMain_restore_mem a w cmd p hmem).2

/-- Witness for C2: in a concrete run whose dump exits 0 with an empty
payload the trace stops at the dump with exit 1, and in a concrete
successful run the restored payload is non-empty. -/
theorem migrate_empty_dump_aborts_witness :
    runMigrateMain sampleMigArgs
        { sampleMigWorldOk with
          dumpResult := { stdoutBytes := [], stderr := "", exitCode := 0 } } =
      (migHead, 1) ∧
    ([80, 71] : List Nat) ≠ [] :=
  ⟨(migrate_empty_dump_aborts sampleMigArgs
      { sampleMigWorldOk with
        dumpResult := { stdoutBytes := [], stderr := "", exitCode := 0 } }).1
      (by decide) (by decide) (by decide) (by decide) rfl rfl,
    (migrate_empty_dump_aborts sampleMigArgs sampleMigWorldOk).2
      (restore_cmd "postgres" "alpha" false) [80, 71] (by decide)⟩

/-- C3: the command of every restore invocation contains `--no-owner` and
`--no-acl`; it contains `--clean` when the `--clean` option was supplied,
and (as long as the destination user and database are not themselves
literally named `--clean`) it contains `--clean` exactly when the option
was supplied. -/
theorem restore_flags_follow_clean_option (a : MigArgs) (w : MigWorld)
    (cmd : List String) (p : List Nat)
    (hmem : MigEv.restoreStep cmd p ∈ (runMigrateMain a w).1) :
    "--no-owner" ∈ cmd ∧ "--no-acl" ∈ cmd ∧
      (a.clean = true → "--clean" ∈ cmd) ∧
      (a.dest_user ≠ "--clean" → a.dest_db ≠ "--clean" →
        ("--clean" ∈ cmd ↔ a.clean = true)) := by
  obtain ⟨hcmd, -⟩ := runMigrateMain_restore_mem a w cmd p hmem
  subst hcmd
  exact restore_cmd_flags a.dest_user a.dest_db a.clean

/-- Witness for C3: the restore command of a concrete run without `--clean`
has both suppression flags and no `--clean`. -/
theorem restore_flags_follow_clean_option_witness :
    "--no-owner" ∈ restore_cmd "postgres" "alpha" false ∧
    "--no-acl" ∈ restore_cmd "postgres" "alpha" false ∧
    ¬ ("--clean" ∈ restore_cmd "postgres" "alpha" false) := by
  have h := restore_flags_follow_clean_option sampleMigArgs sampleMigWorldOk
    (restore_cmd "postgres" "alpha" false) [80, 71] (by decide)
  exact ⟨h.1, h.2.1, fun hm => by
    have := (h.2.2.2 (by decide) (by decide)).mp hm
    simp [sampleMigArgs] at this⟩

/-- C5: `check_database_exists` returns false both when the catalog lookup
reports the database absent (stripped stdout differs from `"1"`) and when
the probe command exits non-zero; the `CalledProcessError` is caught inside
the function (its return type is `Bool`, never an exception). -/
theorem check_database_exists_fail_closed (probe : CmdResult)
    (h : probe.exitCode ≠ 0 ∨ pyStrip probe.stdout ≠ "1") :
    check_database_exists probe = false := by
  rcases h with h | h
  · simp [check_database_exists, run_kubectl_exec, h]
  · by_cases he : probe.exitCode = 0
    · simp [check_database_exists, run_kubectl_exec, he, h]
    · simp [check_database_exists, run_kubectl_exec, he]

/-- Witness for C5: a failing probe (exit 1) and an absent-database probe
(exit 0, empty stdout) both yield `false`. -/
theorem check_database_exists_fail_closed_witness :
    check_database_exists { stdout := "", stderr := "psql: error", exitCode := 1 } = false ∧
    check_database_exists { stdout := "\n", stderr := "", exitCode := 0 } = false :=
  ⟨check_database_exists_fail_closed _ (Or.inl (by decide)),
    check_database_exists_fail_closed _ (Or.inr (by decide))⟩

/-- C8: in every run, a `kubectl cp` transfer is immediately followed by the
unlink of the local temporary dump file (also when the copy failed); every
restore invocation is immediately followed by the removal of the remote
`/tmp/dump.dump` (also when the restore failed); and the outcome of that
removal has no effect on the trace or exit code of the run. -/
theorem migrate_temp_cleanup_on_both_paths (a : MigArgs) (w : MigWorld) :
    (MigEv.cpToPod ∈ (runMigrateMain a w).1 →
      ∃ l r, (runMigrateMain a w).1 = l ++ [MigEv.cpToPod, MigEv.unlinkTmp] ++ r) ∧
    (∀ cmd p, MigEv.restoreStep cmd p ∈ (runMigrateMain a w).1 →
      ∃ l r, (runMigrateMain a w).1
        = l ++ [MigEv.restoreStep cmd p, MigEv.rmRemote] ++ r) ∧
    (∀ b, runMigrateMain a { w with rmOk := b } = runMigrateMain a w) := by
  refine ⟨?_, ?_, fun b => rfl⟩
  · intro hmem
    rcases runMigrateMain_shape a w with h|h|h|h|h|h|⟨q, hq, h|⟨e, h⟩⟩ <;>
      rw [h] at hmem ⊢ <;> simp [migHead] at hmem ⊢
    · exact ⟨migHead ++ [MigEv.writeTmp], [], by simp [migHead]⟩
    · exact ⟨migHead ++ [MigEv.writeTmp],
        [MigEv.restoreStep (restore_cmd a.dest_user a.dest_db a.clean) q,
          MigEv.rmRemote], by simp [migHead]⟩
    · exact ⟨migHead ++ [MigEv.writeTmp],
        [MigEv.restoreStep (restore_cmd a.dest_user a.dest_db a.clean) q,
          MigEv.rmRemote, MigEv.fixPerms], by simp [migHead]⟩
  · intro cmd p hmem
    rcases runMigrateMain_shape a w with h|h|h|h|h|h|⟨q, hq, h|⟨e, h⟩⟩ <;>
      rw [h] at hmem ⊢ <;> simp [migHead] at hmem ⊢
    · obtain ⟨hc, hp⟩ := hmem
      subst hc; subst hp
      exact ⟨migHead ++ [MigEv.writeTmp, MigEv.cpToPod, MigEv.unlinkTmp],
        [], by simp [migHead]⟩
    · obtain ⟨hc, hp⟩ := hmem
      subst hc; subst hp
      exact ⟨migHead ++ [MigEv.writeTmp, MigEv.cpToPod, MigEv.unlinkTmp],
        [MigEv.fixPerms], by simp [migHead]⟩

/-- Witness for C8: the decompositions at a concrete successful run, and
invariance of that run under flipping the remote-removal outcome. -/
theorem migrate_temp_cleanup_on_both_paths_witness :
    (∃ l r, (runMigrateMain sampleMigArgs sampleMigWorldOk).1
      = l ++ [MigEv.cpToPod, MigEv.unlinkTmp] ++ r) ∧
    (∃ l r, (runMigrateMain sampleMigArgs sampleMigWorldOk).1
      = l ++ [MigEv.restoreStep (restore_cmd "postgres" "alpha" false) [80, 71],
          MigEv.rmRemote] ++ r) ∧
    runMigrateMain sampleMigArgs { sampleMigWorldOk with rmOk := false }
      = runMigrateMain sampleMigArgs sampleMigWorldOk :=
  ⟨(migrate_temp_cleanup_on_both_paths sampleMigArgs sampleMigWorldOk).1 (by decide),
    (migrate_temp_cleanup_on_both_paths sampleMigArgs sampleMigWorldOk).2.1
      (restore_cmd "postgres" "alpha" false) [80, 71] (by decide),
    (migrate_temp_cleanup_on_both_paths sampleMigArgs sampleMigWorldOk).2.2 false⟩

/-- C9: when both pods and both databases check out and dump, transfer and
restore all succeed, the run exits with code 0 and still performs the
permission-repair step, even when the permission-repair command fails with
a `CalledProcessError` (which is only reported as a warning). -/
theorem fix_permissions_failure_nonfatal (a : MigArgs) (w : MigWorld)
    (h1 : check_pod_exists w.srcPodCheck = true)
    (h2 : check_pod_exists w.dstPodCheck = true)
    (h3 : check_database_exists w.srcDbProbe = true)
    (h4 : check_database_exists w.dstDbProbe = true)
    (h5 : w.dumpResult.exitCode = 0)
    (h6 : w.dumpResult.stdoutBytes ≠ [])
    (h7 : w.cpStep = StepOutcome.ok)
    (h8 : w.restoreOutcome = StepOutcome.ok)
    (h9 : w.fixPermsStep = StepOutcome.ok ∨ w.fixPermsStep = StepOutcome.err) :
    (runMigrateMain a w).2 = 0 ∧ MigEv.fixPerms ∈ (runMigrateMain a w).1 := by
  rcases hb : w.dumpResult.stdoutBytes with _ | ⟨x, xs⟩
  · exact absurd hb h6
  rcases h9 with h9 | h9 <;>
    simp [runMigrateMain, h1, h2, h3, h4, dump_database, run_kubectl_exec_binary,
      h5, hb, restore_database, h7, h8, h9, migHead]

/-- Witness for C9: a concrete run in which everything succeeds except the
permission repair still exits 0 and runs the repair step. -/
theorem fix_permissions_failure_nonfatal_witness :
    (runMigrateMain sampleMigArgs
        { sampleMigWorldOk with fixPermsStep := StepOutcome.err }).2 = 0 ∧
    MigEv.fixPerms ∈ (runMigrateMain sampleMigArgs
        { sampleMigWorldOk with fixPermsStep := StepOutcome.err }).1 :=
  fix_permissions_failure_nonfatal sampleMigArgs
    { sampleMigWorldOk with fixPermsStep := StepOutcome.err }
    (by decide) (by decide) (by decide) (by decide) rfl (by decide) rfl rfl
    (Or.inr rfl)

/-- Exhaustive description of the possible traces of `runSyncMain`. -/
theorem runSyncMain_shape (a : SyncArgs) (w : SyncWorld) :
    runSyncMain a w = ([SyncEv.checkPvc], 1) ∨
    runSyncMain a w = ([SyncEv.checkPvc], 0) ∨
    runSyncMain a w = ([SyncEv.checkPvc, SyncEv.applyPod], 1) ∨
    (awaitPodReady w.polls = true ∧
      runSyncMain a w =
        ([SyncEv.checkPvc, SyncEv.applyPod, SyncEv.hostCheck,
          SyncEv.deletePod], 1)) ∨
    (awaitPodReady w.polls = true ∧ w.hostCheckStep = StepOutcome.ok ∧
      ∃ e, runSyncMain a w =
        ([SyncEv.checkPvc, SyncEv.applyPod, SyncEv.hostCheck, SyncEv.fileProbe,
          SyncEv.wipePvc, SyncEv.tarCopy, SyncEv.deletePod], e)) ∨
    (awaitPodReady w.polls = true ∧ w.hostCheckStep = StepOutcome.ok ∧
      runSyncMain a w =
        ([SyncEv.checkPvc, SyncEv.applyPod, SyncEv.hostCheck, SyncEv.fileProbe,
          SyncEv.wipePvc, SyncEv.tarCopy, SyncEv.verifyStep,
          SyncEv.deletePod], 0)) := by
  by_cases h1 : check_pvc_exists w.pvcCheck = true
  swap
  · rw [Bool.not_eq_true] at h1
    exact Or.inl (by simp [runSyncMain, h1])
  by_cases h2 : a.dryRun = true
  · exact Or.inr (Or.inl (by simp [runSyncMain, h1, h2]))
  rw [Bool.not_eq_true] at h2
  cases hap : w.applyStep with
  | err =>
    exact Or.inr (Or.inr (Or.inl
      (by simp [runSyncMain, create_temp_pod, h1, h2, hap])))
  | intr =>
    exact Or.inr (Or.inr (Or.inl
      (by simp [runSyncMain, create_temp_pod, h1, h2, hap])))
  | ok =>
    by_cases hr : awaitPodReady w.polls = true
    swap
    · rw [Bool.not_eq_true] at hr
      exact Or.inr (Or.inr (Or.inl
        (by simp [runSyncMain, create_temp_pod, h1, h2, hap, hr])))
    cases hhc : w.hostCheckStep with
    | err =>
      exact Or.inr (Or.inr (Or.inr (Or.inl ⟨hr, by
        simp [runSyncMain, create_temp_pod, sync_data_from_host,
          h1, h2, hap, hr, hhc]⟩)))
    | intr =>
      exact Or.inr (Or.inr (Or.inr (Or.inl ⟨hr, by
        simp [runSyncMain, create_temp_pod, sync_data_from_host,
          h1, h2, hap, hr, hhc]⟩)))
    | ok =>
      cases hsc : w.syncCmdStep with
      | ok =>
        by_cases hv : a.verify = true
        · exact Or.inr (Or.inr (Or.inr (Or.inr (Or.inr ⟨hr, rfl, by
            simp [runSyncMain, create_temp_pod, sync_data_from_host,
              h1, h2, hap, hr, hhc, hsc, hv]⟩))))
        · rw [Bool.not_eq_true] at hv
          exact Or.inr (Or.inr (Or.inr (Or.inr (Or.inl ⟨hr, rfl, 0, by
            simp [runSyncMain, create_temp_pod, sync_data_from_host,
              h1, h2, hap, hr, hhc, hsc, hv]⟩))))
      | err =>
        exact Or.inr (Or.inr (Or.inr (Or.inr (Or.inl ⟨hr, rfl, 1, by
          simp [runSyncMain, create_temp_pod, sync_data_from_host,
            h1, h2, hap, hr, hhc, hsc]⟩))))
      | intr =>
        exact Or.inr (Or.inr (Or.inr (Or.inr (Or.inl ⟨hr, rfl, 1, by
          simp [runSyncMain, create_temp_pod, sync_data_from_host,
            h1, h2, hap, hr, hhc, hsc]⟩))))

/-! ## Claims about scripts/sync_pvc_from_host.py -/

/-- C1 (refuting evaluation): in the run of spec scenario D — PVC exists,
`kubectl apply` succeeds so the helper pod is created, but the pod never
reaches `Running` within the readiness window — `delete_pod` is invoked
zero times, not once: `main` exits 1 from the `create_temp_pod` branch with
`pod_created` still `False`, so the `finally` block skips the teardown and
the helper pod leaks.  (The last conjunct confirms the part of the claim
the code does satisfy: a `delete_pod` call whose `kubectl delete` fails —
e.g. on an already-deleted pod — returns normally instead of raising.) -/
theorem sync_timeout_skips_teardown :
    (runSyncMain { verify := false, dryRun := false } syncTimeoutWorld).1.count
        SyncEv.deletePod = 0 ∧
    SyncEv.applyPod ∈
      (runSyncMain { verify := false, dryRun := false } syncTimeoutWorld).1 ∧
    (runSyncMain { verify := false, dryRun := false } syncTimeoutWorld).2 = 1 ∧
    delete_pod { stdout := "",
                 stderr := "Error from server (NotFound): pods not found",
                 exitCode := 1 } = Except.ok () :=
  ⟨by decide, by decide, by decide, rfl⟩

/-- C4 (refuting evaluation): `check_host_path_exists_on_node` returns
`true` even when the directory-existence test inside the pod fails with
exit status 1, because it runs the test with `check=False` (so no exception
is raised for the non-zero exit) and then returns `True` unconditionally. -/
theorem host_path_check_true_despite_failure :
    check_host_path_exists_on_node
      { stdout := "", stderr := "", exitCode := 1 } = true := by decide

/-- C6: the `verify_sync` match predicate holds exactly when the file
counts are equal and the absolute byte-size difference is strictly below
1024; hence it is true for identical content (equal counts, equal sizes)
and false whenever the destination is missing one file (counts differing
by one), regardless of the sizes. -/
theorem verify_sync_match_spec (hc hs pc ps : Nat) :
    (verify_sync_match hc hs pc ps = true ↔
      hc = pc ∧ verify_sync_size_diff hs ps < 1024) ∧
    verify_sync_match hc hs hc hs = true ∧
    verify_sync_match (pc + 1) hs pc ps = false := by
  refine ⟨?_, ?_, ?_⟩
  · simp [verify_sync_match]
  · simp [verify_sync_match, verify_sync_size_diff]
  · simp [verify_sync_match]

/-- C7: whenever a run of the Volume Sync Procedure issues the destination
wipe, the helper pod had reached `Running` and the host-path accessibility
check inside the helper succeeded, and the wipe sits between that check and
the tar copy; contrapositively, a run in which the host path is not
accessible never wipes the destination. -/
theorem sync_wipe_after_ready_and_host_check (a : SyncArgs) (w : SyncWorld)
    (hmem : SyncEv.wipePvc ∈ (runSyncMain a w).1) :
    awaitPodReady w.polls = true ∧ w.hostCheckStep = StepOutcome.ok ∧
    ∃ l r, (runSyncMain a w).1
      = l ++ [SyncEv.hostCheck, SyncEv.fileProbe, SyncEv.wipePvc,
          SyncEv.tarCopy] ++ r := by
  rcases runSyncMain_shape a w with h|h|h|⟨hr, h⟩|⟨hr, hhc, e, h⟩|⟨hr, hhc, h⟩
  · rw [h] at hmem; simp at hmem
  · rw [h] at hmem; simp at hmem
  · rw [h] at hmem; simp at hmem
  · rw [h] at hmem; simp at hmem
  · exact ⟨hr, hhc, [SyncEv.checkPvc, SyncEv.applyPod], [SyncEv.deletePod],
      by rw [h]; rfl⟩
  · exact ⟨hr, hhc, [SyncEv.checkPvc, SyncEv.applyPod],
      [SyncEv.verifyStep, SyncEv.deletePod], by rw [h]; rfl⟩

/-- Witness for C7: the ordering at a concrete fully successful run. -/
theorem sync_wipe_after_ready_and_host_check_witness :
    awaitPodReady sampleSyncWorldOk.polls = true ∧
    sampleSyncWorldOk.hostCheckStep = StepOutcome.ok ∧
    ∃ l r, (runSyncMain { verify := false, dryRun := false } sampleSyncWorldOk).1
      = l ++ [SyncEv.hostCheck, SyncEv.fileProbe, SyncEv.wipePvc,
          SyncEv.tarCopy] ++ r :=
  sync_wipe_after_ready_and_host_check
    { verify := false, dryRun := false } sampleSyncWorldOk (by decide)

/-- C10: with `--dry-run` and an existing volume claim, the run performs
only the volume-claim existence check — no helper pod is applied, nothing
is wiped or copied — and exits with code 0. -/
theorem sync_dry_run_short_circuits (a : SyncArgs) (w : SyncWorld)
    (hp : check_pvc_exists w.pvcCheck = true) (hd : a.dryRun = true) :
    runSyncMain a w = ([SyncEv.checkPvc], 0) := by
  simp [runSyncMain, hp, hd]

/-- Witness for C10: concrete dry run against an existing PVC. -/
theorem sync_dry_run_short_circuits_witness :
    runSyncMain { verify := false, dryRun := true } sampleSyncWorldOk
      = ([SyncEv.checkPvc], 0) :=
  sync_dry_run_short_circuits { verify := false, dryRun := true }
    sampleSyncWorldOk (by decide) rfl

end Homelab
